import Mathlib

/-!
Shallow embedding of the virtual-classroom domain model
(`src/classroom_ddd.py`) and proofs of the specification claims.

Python `datetime` values are modelled as integers (only their ordering is
used by the code), `uuid4()` results as caller-supplied `Nat` identifiers,
and `float` as `ℚ` (only ordering, sums and division are used).  Methods
that mutate an aggregate in place become functions returning the new
aggregate; methods that can `raise` return `Except`, and raising before
any field assignment corresponds to returning `.error` without building a
new aggregate.
-/

namespace Classroom

/-- Entity `User`: equality in the source (`User.__eq__`) is by `id` only. -/
structure User where
  id : Nat
  name : String
  email : String
deriving DecidableEq

/-- Python `User.__eq__`: identity-based equality, `self.id == other.id`. -/
def userEq (a b : User) : Bool := a.id == b.id

/-- Enum `UserRole`. -/
inductive UserRole
  | teacher
  | student
deriving DecidableEq

/-- Enum `CourseStatus`. -/
inductive CourseStatus
  | active
  | archived
  | draft
deriving DecidableEq

/-- Enum `SubmissionStatus`. -/
inductive SubmissionStatus
  | not_submitted
  | submitted
  | graded
  | late
deriving DecidableEq

/-- Enum `ContentVisibility`. -/
inductive ContentVisibility
  | all
  | teachers_only
deriving DecidableEq

/-- Value object `AccessCode` (the length-≥-6 validation concerns only
construction of the value object and no claim, so the stored value is kept
as-is). -/
structure AccessCode where
  value : String
deriving DecidableEq

/-- Value object `Grade`: `points` and `max_points` (floats in the source,
modelled as `ℚ`). -/
structure Grade where
  points : ℚ
  max_points : ℚ
deriving DecidableEq

/-- Validation of `Grade.__post_init__`: raises unless
`points ≥ 0 ∧ max_points > 0 ∧ points ≤ max_points`.  Construction through
this function models `Grade(points, max_points)` in Python. -/
def Grade.make (points max_points : ℚ) : Except Unit Grade :=
  if points < 0 ∨ max_points ≤ 0 then .error ()
  else if points > max_points then .error ()
  else .ok ⟨points, max_points⟩

/-- Method `Grade.percentage`. -/
def Grade.percentage (g : Grade) : ℚ :=
  g.points / g.max_points * 100

/-- Entity `CourseEnrollment`. -/
structure CourseEnrollment where
  id : Nat
  user : User
  role : UserRole
  enrolled_at : Int
deriving DecidableEq

/-- Method `CourseEnrollment.is_teacher`. -/
def CourseEnrollment.is_teacher (e : CourseEnrollment) : Bool :=
  e.role == UserRole.teacher

/-- Method `CourseEnrollment.is_student`. -/
def CourseEnrollment.is_student (e : CourseEnrollment) : Bool :=
  e.role == UserRole.student

/-- Entity `Announcement`. -/
structure Announcement where
  id : Nat
  title : String
  content : String
  created_by : User
  created_at : Int
  visibility : ContentVisibility
deriving DecidableEq

/-- Entity `Material`. -/
structure Material where
  id : Nat
  title : String
  description : String
  content_url : Option String
  created_by : User
  created_at : Int
  visibility : ContentVisibility
deriving DecidableEq

/-- Aggregate root `Course`. -/
structure Course where
  id : Nat
  name : String
  description : String
  created_by : User
  access_code : AccessCode
  status : CourseStatus
  max_students : Option Nat
  enrollments : List CourseEnrollment
  announcements : List Announcement
  materials : List Material
  created_at : Int
deriving DecidableEq

namespace Course

/-- Constructor `Course.__init__` together with `Course.__post_init__`: after storing
the fields, if no enrollment already has `e.user == created_by` and teacher
role, a fresh teacher enrollment for the creator is appended.
`fresh_id` stands for the `uuid4()` call, `now` for `datetime.now()`. -/
def mkCourse (id : Nat) (name description : String) (created_by : User)
    (access_code : AccessCode) (status : CourseStatus)
    (max_students : Option Nat) (enrollments : List CourseEnrollment)
    (fresh_id : Nat) (now : Int) : Course :=
  let c : Course :=
    { id := id, name := name, description := description
      created_by := created_by, access_code := access_code, status := status
      max_students := max_students, enrollments := enrollments
      announcements := [], materials := [], created_at := now }
  if c.enrollments.any (fun e => userEq e.user created_by && e.is_teacher) then
    c
  else
    { c with enrollments :=
        c.enrollments ++ [⟨fresh_id, created_by, UserRole.teacher, now⟩] }

/-- Method `Course.is_active`. -/
def is_active (c : Course) : Bool :=
  c.status == CourseStatus.active

/-- The count `sum(1 for e in self.enrollments if e.is_student())`. -/
def student_count (c : Course) : Nat :=
  (c.enrollments.filter (·.is_student)).length

/-- Method `Course.can_accept_students`. -/
def can_accept_students (c : Course) : Bool :=
  if !c.is_active then false
  else
    match c.max_students with
    | none => true
    | some n => c.student_count < n

/-- Error kinds raised by `Course` methods, distinguished in the source by
their `ValueError` messages. -/
inductive CourseError
  | invalidState
  | invalidCredential
  | alreadyEnrolled
  | capacityExceeded
  | unauthorized
deriving DecidableEq

/-- Method `Course.enroll_student`: the four validations in source order, then
append of a fresh student enrollment. -/
def enroll_student (c : Course) (user : User) (provided_code : String)
    (fresh_id : Nat) (now : Int) :
    Except CourseError (Course × CourseEnrollment) :=
  if !c.is_active then .error .invalidState
  else if provided_code ≠ c.access_code.value then .error .invalidCredential
  else if c.enrollments.any (fun e => userEq e.user user) then
    .error .alreadyEnrolled
  else if !c.can_accept_students then .error .capacityExceeded
  else
    let e : CourseEnrollment := ⟨fresh_id, user, UserRole.student, now⟩
    .ok ({ c with enrollments := c.enrollments ++ [e] }, e)

/-- The state of the course object after an `enroll_student` call: in the
source every `raise` happens before the `append`, so on an exception the
course is unchanged. -/
def enrollAfter (c : Course) (user : User) (provided_code : String)
    (fresh_id : Nat) (now : Int) : Course :=
  match c.enroll_student user provided_code fresh_id now with
  | .ok (c', _) => c'
  | .error _ => c

/-- Method `Course.add_teacher`. -/
def add_teacher (c : Course) (user : User) (fresh_id : Nat) (now : Int) :
    Except CourseError (Course × CourseEnrollment) :=
  if c.enrollments.any (fun e => userEq e.user user) then
    .error .alreadyEnrolled
  else
    let e : CourseEnrollment := ⟨fresh_id, user, UserRole.teacher, now⟩
    .ok ({ c with enrollments := c.enrollments ++ [e] }, e)

/-- The state of the course object after an `add_teacher` call. -/
def addTeacherAfter (c : Course) (user : User) (fresh_id : Nat) (now : Int) :
    Course :=
  match c.add_teacher user fresh_id now with
  | .ok (c', _) => c'
  | .error _ => c

/-- Method `Course.get_user_role`: first enrollment whose user matches (by id). -/
def get_user_role (c : Course) (user : User) : Option UserRole :=
  (c.enrollments.find? (fun e => userEq e.user user)).map (·.role)

/-- Method `Course.is_enrolled`. -/
def is_enrolled (c : Course) (user : User) : Bool :=
  c.enrollments.any (fun e => userEq e.user user)

/-- Method `Course.post_announcement` (teachers only). -/
def post_announcement (c : Course) (user : User) (title content : String)
    (visibility : ContentVisibility) (fresh_id : Nat) (now : Int) :
    Except CourseError (Course × Announcement) :=
  if c.get_user_role user ≠ some UserRole.teacher then .error .unauthorized
  else
    let a : Announcement := ⟨fresh_id, title, content, user, now, visibility⟩
    .ok ({ c with announcements := c.announcements ++ [a] }, a)

/-- The state of the course object after a `post_announcement` call. -/
def postAnnouncementAfter (c : Course) (user : User) (title content : String)
    (visibility : ContentVisibility) (fresh_id : Nat) (now : Int) : Course :=
  match c.post_announcement user title content visibility fresh_id now with
  | .ok (c', _) => c'
  | .error _ => c

/-- Method `Course.add_material` (teachers only). -/
def add_material (c : Course) (user : User) (title description : String)
    (content_url : Option String) (visibility : ContentVisibility)
    (fresh_id : Nat) (now : Int) : Except CourseError (Course × Material) :=
  if c.get_user_role user ≠ some UserRole.teacher then .error .unauthorized
  else
    let m : Material := ⟨fresh_id, title, description, content_url, user,
      now, visibility⟩
    .ok ({ c with materials := c.materials ++ [m] }, m)

/-- The state of the course object after an `add_material` call. -/
def addMaterialAfter (c : Course) (user : User) (title description : String)
    (content_url : Option String) (visibility : ContentVisibility)
    (fresh_id : Nat) (now : Int) : Course :=
  match c.add_material user title description content_url visibility
      fresh_id now with
  | .ok (c', _) => c'
  | .error _ => c

/-- Method `Course.activate`: raises on archived, otherwise sets status active. -/
def activate (c : Course) : Except CourseError Course :=
  if c.status == CourseStatus.archived then .error .invalidState
  else .ok { c with status := CourseStatus.active }

/-- Method `Course.archive`: unconditionally sets status archived. -/
def archive (c : Course) : Course :=
  { c with status := CourseStatus.archived }

end Course

/-- Aggregate root `Assignment`.  The `__post_init__` creator-is-teacher
validation concerns construction only and no claim quantifies over it, so
the structure carries the stored fields. -/
structure Assignment where
  id : Nat
  course : Course
  title : String
  description : String
  created_by : User
  max_points : ℚ
  due_date : Int
  allow_late_submissions : Bool
  created_at : Int
deriving DecidableEq

namespace Assignment

/-- Method `Assignment.is_past_due`: `datetime.now() > self.due_date`, with the
clock reading passed in as `now`. -/
def is_past_due (a : Assignment) (now : Int) : Bool :=
  now > a.due_date

/-- Method `Assignment.can_submit`. -/
def can_submit (a : Assignment) (user : User) (now : Int) : Bool :=
  if a.course.get_user_role user ≠ some UserRole.student then false
  else if a.is_past_due now && !a.allow_late_submissions then false
  else true

end Assignment

/-- Aggregate root `Submission`. -/
structure Submission where
  id : Nat
  assignment : Assignment
  student : User
  content : String
  submitted_at : Int
  status : SubmissionStatus
  grade : Option Grade
  feedback : Option String
deriving DecidableEq

namespace Submission

/-- Error kinds raised by `Submission` methods, distinguished in the
source by their `ValueError` messages. -/
inductive SubError
  | notEligible
  | notTeacher
  | selfGrade
  | invalidGrade
deriving DecidableEq

/-- Factory `Submission.create_submission`: eligibility check, then the
status is `late` when the current time is past the due date, else
`submitted`.  The single `datetime.now()` reading is `now`. -/
def create_submission (assignment : Assignment) (student : User)
    (content : String) (fresh_id : Nat) (now : Int) :
    Except SubError Submission :=
  if !assignment.can_submit student now then .error .notEligible
  else
    let status :=
      if now > assignment.due_date then SubmissionStatus.late
      else SubmissionStatus.submitted
    .ok { id := fresh_id, assignment := assignment, student := student
          content := content, submitted_at := now, status := status
          grade := none, feedback := none }

/-- Method `Submission.add_grade`: teacher check, self-grading check, then
`Grade(points, assignment.max_points)` (whose validation failures
propagate), and only then the three field assignments. -/
def add_grade (s : Submission) (graded_by : User) (points : ℚ)
    (feedback : String) : Except SubError Submission :=
  if s.assignment.course.get_user_role graded_by ≠ some UserRole.teacher then
    .error .notTeacher
  else if userEq graded_by s.student then .error .selfGrade
  else
    match Grade.make points s.assignment.max_points with
    | .error _ => .error .invalidGrade
    | .ok g =>
        .ok { s with grade := some g, feedback := some feedback
                     status := SubmissionStatus.graded }

/-- The state of the submission object after an `add_grade` call: in the
source every `raise` (including the one inside the `Grade` constructor)
happens before any field assignment, so on an exception the submission is
unchanged. -/
def addGradeAfter (s : Submission) (graded_by : User) (points : ℚ)
    (feedback : String) : Submission :=
  match s.add_grade graded_by points feedback with
  | .ok s' => s'
  | .error _ => s

/-- Method `Submission.is_graded`. -/
def is_graded (s : Submission) : Bool :=
  s.status == SubmissionStatus.graded

/-- Method `Submission.is_late`. -/
def is_late (s : Submission) : Bool :=
  s.status == SubmissionStatus.late || s.submitted_at > s.assignment.due_date

end Submission

/-- Result record of `CourseManagementService.get_course_statistics`. -/
structure CourseStatistics where
  total_students : Nat
  total_teachers : Nat
  total_announcements : Nat
  total_materials : Nat
  status : CourseStatus
  enrollment_percentage : Option ℚ
deriving DecidableEq

namespace CourseManagementService

/-- Service `CourseManagementService.get_course_statistics`.  The percentage guard
is Python truthiness of `course.max_students`: both `None` and `0` are
falsy and give `None`; any other value divides. -/
def get_course_statistics (course : Course) : CourseStatistics :=
  let total_students := (course.enrollments.filter (·.is_student)).length
  let total_teachers := (course.enrollments.filter (·.is_teacher)).length
  { total_students := total_students
    total_teachers := total_teachers
    total_announcements := course.announcements.length
    total_materials := course.materials.length
    status := course.status
    enrollment_percentage :=
      match course.max_students with
      | none => none
      | some 0 => none
      | some n => some ((total_students : ℚ) / (n : ℚ) * 100) }

end CourseManagementService

namespace AssignmentService

/-- Service `AssignmentService.calculate_average_grade`.  The outer `Option` layer
models the run: `none` is the `AttributeError` Python would raise when a
submission with `graded` status has `grade = None` (`s.grade.percentage()`
on `None`); `some r` is a normal return with value `r`. -/
def calculate_average_grade (submissions : List Submission) :
    Option (Option ℚ) :=
  let graded := submissions.filter (·.is_graded)
  if graded.isEmpty then some none
  else
    match graded.mapM (·.grade) with
    | none => none
    | some gs =>
        some (some ((gs.map Grade.percentage).sum / (gs.length : ℚ)))

end AssignmentService

/-- Number of enrollments in which the course's creator appears with
teacher role. -/
def Course.creatorTeacherCount (c : Course) : Nat :=
  (c.enrollments.filter
    (fun e => userEq e.user c.created_by && e.is_teacher)).length

/-- Courses whose enrollment collection is produced only through the
public operations: construction (with the default, empty enrollment
list), successful `enroll_student` and `add_teacher` calls, and the
lifecycle transitions (which do not touch enrollments but determine
whether later enrollments can happen). -/
inductive Reachable : Course → Prop
  | construct (id : Nat) (name description : String) (created_by : User)
      (access_code : AccessCode) (status : CourseStatus)
      (max_students : Option Nat) (fresh_id : Nat) (now : Int) :
      Reachable (Course.mkCourse id name description created_by access_code
        status max_students [] fresh_id now)
  | enroll (c : Course) (u : User) (code : String) (fresh_id : Nat)
      (now : Int) (c' : Course) (e : CourseEnrollment) :
      Reachable c →
      c.enroll_student u code fresh_id now = .ok (c', e) → Reachable c'
  | addTeacher (c : Course) (u : User) (fresh_id : Nat) (now : Int)
      (c' : Course) (e : CourseEnrollment) :
      Reachable c → c.add_teacher u fresh_id now = .ok (c', e) → Reachable c'
  | activateStep (c c' : Course) :
      Reachable c → c.activate = .ok c' → Reachable c'
  | archiveStep (c : Course) : Reachable c → Reachable c.archive

/-! ### Concrete fixtures (used by witnesses and counterexamples) -/

def alice : User := ⟨1, "Alice", "alice@school.edu"⟩

def bob : User := ⟨2, "Bob", "bob@school.edu"⟩

def carol : User := ⟨3, "Carol", "carol@school.edu"⟩

def dora : User := ⟨4, "Dora", "dora@school.edu"⟩

def exEnroll0 : CourseEnrollment := ⟨50, alice, UserRole.teacher, 0⟩

def exEnroll1 : CourseEnrollment := ⟨51, bob, UserRole.student, 1⟩

def exEnroll2 : CourseEnrollment := ⟨52, dora, UserRole.teacher, 2⟩

/-- An active course created by `alice` with capacity 1. -/
def exCourse0 : Course :=
  Course.mkCourse 100 "Python" "Intro" alice ⟨"SECRET"⟩ CourseStatus.active
    (some 1) [] 50 0

/-- Course `exCourse0` after `bob` enrolled successfully. -/
def exCourse1 : Course :=
  { exCourse0 with enrollments := exCourse0.enrollments ++ [exEnroll1] }

/-- Course `exCourse1` after `dora` was added as a second teacher. -/
def exCourse2 : Course :=
  { exCourse1 with enrollments := exCourse1.enrollments ++ [exEnroll2] }

/-- A draft course created by `alice`. -/
def exCourseDraft : Course :=
  Course.mkCourse 102 "Draft" "d" alice ⟨"SECRET"⟩ CourseStatus.draft
    (some 1) [] 53 0

/-- An assignment on `exCourse2`, due at time 10, late submissions
disallowed. -/
def exAssign : Assignment :=
  { id := 200, course := exCourse2, title := "HW1", description := "hw"
    created_by := alice, max_points := 100, due_date := 10
    allow_late_submissions := false, created_at := 0 }

/-- Like `exAssign` but with late submissions allowed. -/
def exAssignLate : Assignment :=
  { exAssign with id := 201, allow_late_submissions := true }

/-- The on-time submission of `bob` for `exAssign` (created at time 5). -/
def exSub0 : Submission :=
  { id := 300, assignment := exAssign, student := bob, content := "work"
    submitted_at := 5, status := SubmissionStatus.submitted, grade := none
    feedback := none }

/-- Submission `exSub0` after `alice` graded it with 50 points. -/
def exSub1 : Submission :=
  { exSub0 with grade := some ⟨50, 100⟩, feedback := some "ok"
                status := SubmissionStatus.graded }

/-- Submission `exSub1` after `dora` graded it again with 90 points. -/
def exSub2 : Submission :=
  { exSub1 with grade := some ⟨90, 100⟩, feedback := some "better"
                status := SubmissionStatus.graded }

/-- A course constructed with a caller-supplied initial enrollments list
that already contains the creator as teacher twice. -/
def exDupCourse : Course :=
  Course.mkCourse 101 "Dup" "d" alice ⟨"SECRET"⟩ CourseStatus.draft (some 5)
    [⟨70, alice, UserRole.teacher, 0⟩, ⟨71, alice, UserRole.teacher, 0⟩] 72 0

/-! ### Helper lemmas -/

/-- Successful `enroll_student` implies the capacity check passed and the
new course is the old one with a fresh student enrollment appended. -/
theorem enroll_ok_elim {c : Course} {u : User} {code : String} {fresh : Nat}
    {now : Int} {c' : Course} {e : CourseEnrollment}
    (h : c.enroll_student u code fresh now = .ok (c', e)) :
    c.can_accept_students = true ∧
    c' = { c with enrollments :=
      c.enrollments ++ [⟨fresh, u, UserRole.student, now⟩] } := by
  unfold Course.enroll_student at h
  split_ifs at h with h1 h2 h3 h4
  simp at h
  exact ⟨by simpa using h4, h.1.symm⟩

/-- Successful `add_teacher` appends a fresh teacher enrollment. -/
theorem addTeacher_ok_elim {c : Course} {u : User} {fresh : Nat}
    {now : Int} {c' : Course} {e : CourseEnrollment}
    (h : c.add_teacher u fresh now = .ok (c', e)) :
    c' = { c with enrollments :=
      c.enrollments ++ [⟨fresh, u, UserRole.teacher, now⟩] } := by
  unfold Course.add_teacher at h
  split_ifs at h with h1
  simp at h
  exact h.1.symm

/-- Successful `activate` only changes the status to active. -/
theorem activate_ok_elim {c c' : Course} (h : c.activate = .ok c') :
    c' = { c with status := CourseStatus.active } := by
  unfold Course.activate at h
  split_ifs at h with h1
  simp at h
  exact h.symm

/-- When a capacity is set, a passing capacity check means the student
count is strictly below it. -/
theorem can_accept_lt {c : Course} {N : Nat}
    (h : c.can_accept_students = true) (hm : c.max_students = some N) :
    c.student_count < N := by
  unfold Course.can_accept_students at h
  rw [hm] at h
  split_ifs at h with h1
  simp_all

/-- Appending a student enrollment increases the student count by one. -/
theorem student_count_append_student (c : Course) (idv : Nat) (uv : User)
    (nv : Int) :
    ({ c with enrollments := c.enrollments ++
        [⟨idv, uv, UserRole.student, nv⟩] } : Course).student_count
      = c.student_count + 1 := by
  have h : List.filter (fun e => e.is_student)
      [(⟨idv, uv, UserRole.student, nv⟩ : CourseEnrollment)]
      = [⟨idv, uv, UserRole.student, nv⟩] := rfl
  simp only [Course.student_count, List.filter_append, h, List.length_append,
    List.length_singleton]

/-- Appending a teacher enrollment leaves the student count unchanged. -/
theorem student_count_append_teacher (c : Course) (idv : Nat) (uv : User)
    (nv : Int) :
    ({ c with enrollments := c.enrollments ++
        [⟨idv, uv, UserRole.teacher, nv⟩] } : Course).student_count
      = c.student_count := by
  have h : List.filter (fun e => e.is_student)
      [(⟨idv, uv, UserRole.teacher, nv⟩ : CourseEnrollment)] = [] := rfl
  simp only [Course.student_count, List.filter_append, h, List.append_nil]

/-- Construction from the default empty enrollment list yields zero
students (only the creator's teacher enrollment is added). -/
theorem mkCourse_empty_count (id : Nat) (name description : String)
    (created_by : User) (access_code : AccessCode) (status : CourseStatus)
    (max_students : Option Nat) (fresh_id : Nat) (now : Int) :
    (Course.mkCourse id name description created_by access_code status
      max_students [] fresh_id now).student_count = 0 := rfl

/-- Successful `add_grade` always leaves the submission in graded status. -/
theorem add_grade_ok_status {s : Submission} {gb : User} {p : ℚ} {fb : String}
    {s' : Submission} (h : s.add_grade gb p fb = .ok s') :
    s'.status = SubmissionStatus.graded := by
  unfold Submission.add_grade at h
  split_ifs at h with h1 h2
  cases hg : Grade.make p s.assignment.max_points with
  | error e => rw [hg] at h; exact Except.noConfusion h
  | ok g =>
      rw [hg] at h
      simp only [Except.ok.injEq] at h
      rw [← h]

/-- Role lookup only depends on the id of the user looked up, mirroring
`User.__eq__`. -/
theorem get_user_role_congr (c : Course) {u v : User}
    (h : userEq u v = true) :
    c.get_user_role u = c.get_user_role v := by
  have hid : u.id = v.id := by simpa [userEq] using h
  unfold Course.get_user_role
  have hp : (fun e : CourseEnrollment => userEq e.user u)
      = (fun e => userEq e.user v) := by
    funext e; unfold userEq; rw [hid]
  rw [hp]

/-- Monadic map over `Option` returns the pointwise values when every
element maps to `some`. -/
theorem mapM_option_eq_map {α β : Type} (f : α → Option β) (d : β) :
    ∀ l : List α, (∀ x ∈ l, (f x).isSome = true) →
      l.mapM f = some (l.map (fun x => (f x).getD d)) := by
  intro l
  induction l with
  | nil => intro _; rfl
  | cons a t ih =>
      intro h
      have ha := h a (List.mem_cons_self a t)
      obtain ⟨b, hb⟩ := Option.isSome_iff_exists.mp ha
      have ht := ih (fun x hx => h x (List.mem_cons_of_mem a hx))
      simp only [List.mapM_cons, hb, ht, List.map_cons, Option.getD_some,
        bind_pure_comp, Option.map_some, Option.bind_some]
      rfl

/-! ### Claims -/

/-- C1: for every course whose enrollment collection is produced only
through the public operations (construction with the default empty list,
`enroll_student`, `add_teacher`, plus the lifecycle transitions), the
student-role enrollment count never exceeds a set `max_students = N`
after any sequence of successful calls; and an `enroll_student` call that
passes the earlier checks but would make the student count exceed N fails
with CapacityExceeded.  Teachers do not count against the cap. -/
theorem c1_capacity_never_exceeded :
    (∀ c, Reachable c → ∀ N, c.max_students = some N →
      c.student_count ≤ N) ∧
    (∀ (c : Course) (u : User) (fresh_id : Nat) (now : Int) (N : Nat),
      c.max_students = some N → c.is_active = true →
      c.is_enrolled u = false → N ≤ c.student_count →
      c.enroll_student u c.access_code.value fresh_id now =
        .error .capacityExceeded) := by
  constructor
  · intro c hc
    induction hc with
    | construct id name descr cb code status max fresh now =>
        intro N hm
        rw [mkCourse_empty_count]
        exact Nat.zero_le N
    | enroll c u code fresh now c' e hr heq ih =>
        intro N hm
        obtain ⟨hacc, rfl⟩ := enroll_ok_elim heq
        have hm' : c.max_students = some N := hm
        have hlt := can_accept_lt hacc hm'
        rw [student_count_append_student]
        omega
    | addTeacher c u fresh now c' e hr heq ih =>
        intro N hm
        obtain rfl := addTeacher_ok_elim heq
        have hm' : c.max_students = some N := hm
        have := ih N hm'
        rw [student_count_append_teacher]
        exact this
    | activateStep c c' hr heq ih =>
        obtain rfl := activate_ok_elim heq
        exact ih
    | archiveStep c hr ih =>
        exact ih
  · intro c u fresh now N hm hact hen hge
    have hca : c.can_accept_students = false := by
      unfold Course.can_accept_students
      simp [hact, hm, Nat.not_lt.mpr hge]
    simp only [Course.is_enrolled] at hen
    unfold Course.enroll_student
    simp [hact, hca, hen]

/-- Witness for C1 on the concrete course `exCourse1` (capacity 1, one
student enrolled): the invariant holds and a further enrollment attempt
fails with CapacityExceeded. -/
theorem c1_capacity_never_exceeded_witness :
    exCourse1.student_count ≤ 1 ∧
    exCourse1.enroll_student carol "SECRET" 60 2 =
      .error .capacityExceeded := by
  have hr : Reachable exCourse1 :=
    Reachable.enroll exCourse0 bob "SECRET" 51 1 exCourse1 exEnroll1
      (Reachable.construct 100 "Python" "Intro" alice ⟨"SECRET"⟩
        CourseStatus.active (some 1) 50 0) rfl
  refine ⟨c1_capacity_never_exceeded.1 exCourse1 hr 1 rfl, ?_⟩
  exact c1_capacity_never_exceeded.2 exCourse1 carol 60 2 1 rfl rfl rfl
    (by decide)

/-- C2 counterexample: the claim says no further operation mutates grade
or feedback after grading, but `add_grade` is not guarded against
re-grading.  The concrete run below builds a graded submission through the
public API and then grades it a second time (by the other teacher),
successfully changing both grade and feedback. -/
theorem c2_regrade_counterexample :
    exCourse1.add_teacher dora 52 2 = .ok (exCourse2, exEnroll2) ∧
    Submission.create_submission exAssign bob "work" 300 5 = .ok exSub0 ∧
    exSub0.add_grade alice 50 "ok" = .ok exSub1 ∧
    exSub1.is_graded = true ∧
    exSub1.add_grade dora 90 "better" = .ok exSub2 ∧
    exSub2.grade ≠ exSub1.grade ∧ exSub2.feedback ≠ exSub1.feedback :=
  ⟨rfl, rfl, rfl, rfl, rfl, by decide, by decide⟩

/-- C2 amended: the grading transition is one-way for the status — every
successful `add_grade` leaves the submission graded, and once
`is_graded()` is true it stays true under the only mutating operation
(`add_grade`, successful or not), with the status never reset to
submitted or late; however `add_grade` may run again on a graded
submission and overwrite grade and feedback. -/
theorem c2_graded_monotonic :
    ∀ (s : Submission) (gb : User) (p : ℚ) (fb : String),
      (∀ s', s.add_grade gb p fb = .ok s' →
        s'.status = SubmissionStatus.graded ∧ s'.is_graded = true) ∧
      (s.is_graded = true →
        (s.addGradeAfter gb p fb).is_graded = true ∧
        (s.addGradeAfter gb p fb).status ≠ SubmissionStatus.submitted ∧
        (s.addGradeAfter gb p fb).status ≠ SubmissionStatus.late) := by
  intro s gb p fb
  have hok : ∀ s', s.add_grade gb p fb = .ok s' →
      s'.status = SubmissionStatus.graded ∧ s'.is_graded = true := by
    intro s' h
    have := add_grade_ok_status h
    exact ⟨this, by unfold Submission.is_graded; rw [this]; rfl⟩
  refine ⟨hok, ?_⟩
  intro hg
  have hs : s.status = SubmissionStatus.graded := by
    unfold Submission.is_graded at hg
    simpa using hg
  unfold Submission.addGradeAfter
  cases hres : s.add_grade gb p fb with
  | error e =>
      refine ⟨hg, ?_, ?_⟩ <;> rw [hs] <;> simp
  | ok s' =>
      obtain ⟨h1, h2⟩ := hok s' hres
      refine ⟨h2, ?_, ?_⟩ <;> rw [h1] <;> simp

/-- Witness for C2 amended at the concrete regrade of `exSub1`. -/
theorem c2_graded_monotonic_witness :
    exSub2.status = SubmissionStatus.graded ∧
    (exSub1.addGradeAfter dora 90 "better").is_graded = true :=
  ⟨((c2_graded_monotonic exSub1 dora 90 "better").1 exSub2 rfl).1,
   ((c2_graded_monotonic exSub1 dora 90 "better").2 rfl).1⟩

/-- C3: `enroll_student` performs its checks in source order — not active
(InvalidState), access-code mismatch (InvalidCredential), already
enrolled (AlreadyEnrolled), capacity (CapacityExceeded) — and every
failing check raises without mutating the enrollment collection. -/
theorem c3_enroll_check_order :
    ∀ (c : Course) (u : User) (code : String) (fresh_id : Nat) (now : Int),
      (c.is_active = false →
        c.enroll_student u code fresh_id now = .error .invalidState) ∧
      (c.is_active = true → code ≠ c.access_code.value →
        c.enroll_student u code fresh_id now = .error .invalidCredential) ∧
      (c.is_active = true → code = c.access_code.value →
        c.is_enrolled u = true →
        c.enroll_student u code fresh_id now = .error .alreadyEnrolled) ∧
      (c.is_active = true → code = c.access_code.value →
        c.is_enrolled u = false → c.can_accept_students = false →
        c.enroll_student u code fresh_id now = .error .capacityExceeded) ∧
      (∀ err, c.enroll_student u code fresh_id now = .error err →
        c.enrollAfter u code fresh_id now = c ∧
        (c.enrollAfter u code fresh_id now).enrollments = c.enrollments) := by
  intro c u code fresh now
  refine ⟨?_, ?_, ?_, ?_, ?_⟩
  · intro h; unfold Course.enroll_student; simp [h]
  · intro h1 h2; unfold Course.enroll_student; simp [h1, h2]
  · intro h1 h2 h3
    simp only [Course.is_enrolled] at h3
    unfold Course.enroll_student; simp [h1, h2, h3]
  · intro h1 h2 h3 h4
    simp only [Course.is_enrolled] at h3
    unfold Course.enroll_student; simp [h1, h2, h3, h4]
  · intro err h
    unfold Course.enrollAfter
    rw [h]
    exact ⟨rfl, rfl⟩

/-- Witness for C3: each failure kind observed on a concrete course, and
the mismatched-access-code failure leaves the collection unchanged. -/
theorem c3_enroll_check_order_witness :
    (exCourseDraft.enroll_student bob "SECRET" 60 2 = .error .invalidState ∧
      exCourseDraft.enrollAfter bob "SECRET" 60 2 = exCourseDraft) ∧
    (exCourse0.enroll_student bob "WRONG1" 60 2 = .error .invalidCredential ∧
      (exCourse0.enrollAfter bob "WRONG1" 60 2).enrollments =
        exCourse0.enrollments) ∧
    exCourse0.enroll_student alice "SECRET" 60 2 = .error .alreadyEnrolled ∧
    exCourse1.enroll_student carol "SECRET" 60 2 =
      .error .capacityExceeded := by
  refine ⟨⟨?_, ?_⟩, ⟨?_, ?_⟩, ?_, ?_⟩
  · exact (c3_enroll_check_order exCourseDraft bob "SECRET" 60 2).1 rfl
  · exact ((c3_enroll_check_order exCourseDraft bob "SECRET" 60 2).2.2.2.2
      .invalidState
      ((c3_enroll_check_order exCourseDraft bob "SECRET" 60 2).1 rfl)).1
  · exact (c3_enroll_check_order exCourse0 bob "WRONG1" 60 2).2.1 rfl
      (by decide)
  · exact ((c3_enroll_check_order exCourse0 bob "WRONG1" 60 2).2.2.2.2
      .invalidCredential
      ((c3_enroll_check_order exCourse0 bob "WRONG1" 60 2).2.1 rfl
        (by decide))).2
  · exact (c3_enroll_check_order exCourse0 alice "SECRET" 60 2).2.2.1
      rfl rfl rfl
  · exact (c3_enroll_check_order exCourse1 carol "SECRET" 60 2).2.2.2.1
      rfl rfl rfl rfl

/-- C4 counterexample: with a caller-supplied initial enrollments list
already containing the creator as teacher twice, `__post_init__` appends
nothing and the creator appears with teacher role twice, not exactly
once. -/
theorem c4_duplicate_teacher_counterexample :
    exDupCourse.creatorTeacherCount = 2 ∧
    exDupCourse.creatorTeacherCount ≠ 1 :=
  ⟨rfl, by decide⟩

/-- C4 amended: immediately after construction the creator appears with
teacher role at least once, and exactly once whenever the caller-supplied
initial enrollments list contains at most one creator-teacher entry (in
particular for the default empty list). -/
theorem c4_creator_teacher_amended :
    ∀ (id : Nat) (name description : String) (created_by : User)
      (access_code : AccessCode) (status : CourseStatus)
      (max_students : Option Nat) (enrollments : List CourseEnrollment)
      (fresh_id : Nat) (now : Int),
      1 ≤ (Course.mkCourse id name description created_by access_code status
        max_students enrollments fresh_id now).creatorTeacherCount ∧
      ((enrollments.filter
          (fun e => userEq e.user created_by && e.is_teacher)).length ≤ 1 →
        (Course.mkCourse id name description created_by access_code status
          max_students enrollments fresh_id now).creatorTeacherCount
            = 1) := by
  intro id name descr cb code status max ens fresh now
  unfold Course.mkCourse Course.creatorTeacherCount
  dsimp only
  by_cases h : ens.any (fun e => userEq e.user cb && e.is_teacher) = true
  · rw [if_pos h]
    dsimp only
    have hpos : 0 < (ens.filter
        (fun e => userEq e.user cb && e.is_teacher)).length := by
      obtain ⟨x, hx, hpx⟩ := List.any_eq_true.mp h
      exact List.length_pos.mpr
        (List.ne_nil_of_mem (List.mem_filter.mpr ⟨hx, hpx⟩))
    exact ⟨hpos, fun hle => le_antisymm hle hpos⟩
  · rw [if_neg h]
    dsimp only
    have hnil : ens.filter (fun e => userEq e.user cb && e.is_teacher)
        = [] := by
      rw [List.filter_eq_nil_iff]
      intro a ha hpa
      exact h (List.any_eq_true.mpr ⟨a, ha, hpa⟩)
    have hte : (userEq (⟨fresh, cb, UserRole.teacher, now⟩ :
        CourseEnrollment).user cb &&
        (⟨fresh, cb, UserRole.teacher, now⟩ : CourseEnrollment).is_teacher)
        = true := by
      simp [userEq, CourseEnrollment.is_teacher]
    rw [List.filter_append, hnil]
    simp [List.filter, hte]

/-- Witness for C4 amended at the default empty initial list. -/
theorem c4_creator_teacher_amended_witness :
    exCourse0.creatorTeacherCount = 1 :=
  (c4_creator_teacher_amended 100 "Python" "Intro" alice ⟨"SECRET"⟩
    CourseStatus.active (some 1) [] 50 0).2 (by decide)

/-- C5: for a user holding student role in the assignment's course,
`create_submission` strictly after the due date fails when late
submissions are disallowed, succeeds with status late (and `submitted_at`
set to the current time) when they are allowed, and succeeds with status
submitted at or before the due date. -/
theorem c5_submission_timing :
    ∀ (a : Assignment) (u : User) (content : String) (fresh_id : Nat)
      (now : Int),
      a.course.get_user_role u = some UserRole.student →
      (now > a.due_date → a.allow_late_submissions = false →
        Submission.create_submission a u content fresh_id now =
          .error .notEligible) ∧
      (now > a.due_date → a.allow_late_submissions = true →
        Submission.create_submission a u content fresh_id now =
          .ok { id := fresh_id, assignment := a, student := u,
                content := content, submitted_at := now,
                status := SubmissionStatus.late, grade := none,
                feedback := none }) ∧
      (now ≤ a.due_date →
        Submission.create_submission a u content fresh_id now =
          .ok { id := fresh_id, assignment := a, student := u,
                content := content, submitted_at := now,
                status := SubmissionStatus.submitted, grade := none,
                feedback := none }) := by
  intro a u content fresh now hrole
  refine ⟨?_, ?_, ?_⟩
  · intro hgt hal
    have hps : a.is_past_due now = true := by
      unfold Assignment.is_past_due; exact decide_eq_true hgt
    have hcs : a.can_submit u now = false := by
      unfold Assignment.can_submit
      simp [hrole, hps, hal]
    unfold Submission.create_submission
    simp [hcs]
  · intro hgt hal
    have hps : a.is_past_due now = true := by
      unfold Assignment.is_past_due; exact decide_eq_true hgt
    have hcs : a.can_submit u now = true := by
      unfold Assignment.can_submit
      simp [hrole, hps, hal]
    unfold Submission.create_submission
    simp [hcs, hgt]
  · intro hle
    have hps : a.is_past_due now = false := by
      unfold Assignment.is_past_due
      exact decide_eq_false (not_lt.mpr hle)
    have hcs : a.can_submit u now = true := by
      unfold Assignment.can_submit
      simp [hrole, hps]
    have hnl : ¬(now > a.due_date) := not_lt.mpr hle
    unfold Submission.create_submission
    simp [hcs, hnl]

/-- Witness for C5: all three timing outcomes on concrete assignments
(due date 10): late rejection at time 11, late acceptance at time 11 when
allowed, on-time acceptance at time 5. -/
theorem c5_submission_timing_witness :
    Submission.create_submission exAssign bob "w" 302 11 =
      .error .notEligible ∧
    Submission.create_submission exAssignLate bob "w" 303 11 =
      .ok { id := 303, assignment := exAssignLate, student := bob,
            content := "w", submitted_at := 11,
            status := SubmissionStatus.late, grade := none,
            feedback := none } ∧
    Submission.create_submission exAssign bob "work" 300 5 = .ok exSub0 := by
  refine ⟨?_, ?_, ?_⟩
  · exact (c5_submission_timing exAssign bob "w" 302 11 rfl).1 (by decide) rfl
  · exact (c5_submission_timing exAssignLate bob "w" 303 11 rfl).2.1
      (by decide) rfl
  · exact (c5_submission_timing exAssign bob "work" 300 5 rfl).2.2 (by decide)

/-- C6: `add_grade` by a caller without teacher role, or by the
submission's own student (identity-based equality), or with points failing
the Grade validation (negative, or above the assignment's max points),
raises and leaves the submission unchanged — status, grade and feedback
keep their previous values. -/
theorem c6_add_grade_failure_unchanged :
    ∀ (s : Submission) (gb : User) (p : ℚ) (fb : String),
      (s.assignment.course.get_user_role gb ≠ some UserRole.teacher ∨
        userEq gb s.student = true ∨ p < 0 ∨ p > s.assignment.max_points) →
      (∃ err, s.add_grade gb p fb = .error err) ∧
      s.addGradeAfter gb p fb = s ∧
      (s.addGradeAfter gb p fb).status = s.status ∧
      (s.addGradeAfter gb p fb).grade = s.grade ∧
      (s.addGradeAfter gb p fb).feedback = s.feedback := by
  intro s gb p fb hcond
  have herr : ∃ err, s.add_grade gb p fb = .error err := by
    by_cases h1 : s.assignment.course.get_user_role gb =
        some UserRole.teacher
    · by_cases h2 : userEq gb s.student = true
      · exact ⟨.selfGrade, by unfold Submission.add_grade; simp [h1, h2]⟩
      · have hp : p < 0 ∨ p > s.assignment.max_points := by tauto
        have hmk : Grade.make p s.assignment.max_points = .error () := by
          unfold Grade.make
          by_cases ha : p < 0 ∨ s.assignment.max_points ≤ 0
          · rw [if_pos ha]
          · rw [if_neg ha]
            rcases hp with h | h
            · exact absurd (Or.inl h) ha
            · rw [if_pos h]
        exact ⟨.invalidGrade,
          by unfold Submission.add_grade; simp [h1, h2, hmk]⟩
    · exact ⟨.notTeacher, by unfold Submission.add_grade; simp [h1]⟩
  obtain ⟨err, he⟩ := herr
  have hafter : s.addGradeAfter gb p fb = s := by
    unfold Submission.addGradeAfter
    rw [he]
  exact ⟨⟨err, he⟩, hafter, by rw [hafter], by rw [hafter], by rw [hafter]⟩

/-- Witness for C6: `carol` is not enrolled, so her grading attempt fails
and leaves the submission unchanged. -/
theorem c6_add_grade_failure_unchanged_witness :
    (exSub0.add_grade carol 50 "x").isOk = false ∧
    exSub0.addGradeAfter carol 50 "x" = exSub0 := by
  have h := c6_add_grade_failure_unchanged exSub0 carol 50 "x"
    (Or.inl (by decide))
  obtain ⟨⟨err, he⟩, hafter, -⟩ := h
  exact ⟨by rw [he]; rfl, hafter⟩

/-- C7: `activate` raises InvalidState exactly when the status is
archived and otherwise sets it to active; `archive` unconditionally sets
archived from any state; and no modelled operation leaves the archived
state. -/
theorem c7_course_lifecycle :
    ∀ c : Course,
      (c.status = CourseStatus.archived →
        c.activate = .error .invalidState) ∧
      (c.status ≠ CourseStatus.archived →
        c.activate = .ok { c with status := CourseStatus.active }) ∧
      c.archive = { c with status := CourseStatus.archived } ∧
      (c.status = CourseStatus.archived →
        c.archive.status = CourseStatus.archived ∧
        (∀ u code fresh now,
          (c.enrollAfter u code fresh now).status = CourseStatus.archived) ∧
        (∀ u fresh now,
          (c.addTeacherAfter u fresh now).status = CourseStatus.archived) ∧
        (∀ u t cont vis fresh now,
          (c.postAnnouncementAfter u t cont vis fresh now).status =
            CourseStatus.archived) ∧
        (∀ u t d url vis fresh now,
          (c.addMaterialAfter u t d url vis fresh now).status =
            CourseStatus.archived)) := by
  intro c
  refine ⟨?_, ?_, rfl, ?_⟩
  · intro h; unfold Course.activate; simp [h]
  · intro h; unfold Course.activate; simp [h]
  · intro h
    have hia : c.is_active = false := by
      unfold Course.is_active; rw [h]; rfl
    refine ⟨rfl, ?_, ?_, ?_, ?_⟩
    · intro u code fresh now
      unfold Course.enrollAfter Course.enroll_student
      simp [hia, h]
    · intro u fresh now
      unfold Course.addTeacherAfter Course.add_teacher
      by_cases hc : c.enrollments.any (fun e => userEq e.user u) = true <;>
        simp [hc, h]
    · intro u t cont vis fresh now
      unfold Course.postAnnouncementAfter Course.post_announcement
      by_cases hc : c.get_user_role u = some UserRole.teacher <;>
        simp [hc, h]
    · intro u t d url vis fresh now
      unfold Course.addMaterialAfter Course.add_material
      by_cases hc : c.get_user_role u = some UserRole.teacher <;>
        simp [hc, h]

/-- Witness for C7 on concrete courses: activating an archived course
fails, activating a draft succeeds, and an archived course stays archived
across an enrollment attempt. -/
theorem c7_course_lifecycle_witness :
    (exCourse0.archive.activate = .error .invalidState) ∧
    (exCourseDraft.activate =
      .ok { exCourseDraft with status := CourseStatus.active }) ∧
    (exCourse0.archive.enrollAfter carol "SECRET" 61 3).status =
      CourseStatus.archived := by
  refine ⟨(c7_course_lifecycle exCourse0.archive).1 rfl,
    (c7_course_lifecycle exCourseDraft).2.1 (by decide), ?_⟩
  exact (((c7_course_lifecycle exCourse0.archive).2.2.2 rfl).2.1)
    carol "SECRET" 61 3

/-- C8: when every graded submission carries a grade (as all submissions
produced by the public API do), `calculate_average_grade` returns none on
a list with no graded submission and otherwise the arithmetic mean of the
grade percentages of exactly the graded submissions. -/
theorem c8_average_grade :
    ∀ subs : List Submission,
      (∀ s ∈ subs, s.is_graded = true → s.grade.isSome = true) →
      (subs.filter (·.is_graded) = [] →
        AssignmentService.calculate_average_grade subs = some none) ∧
      (subs.filter (·.is_graded) ≠ [] →
        AssignmentService.calculate_average_grade subs =
          some (some (((subs.filter (·.is_graded)).map
              (fun s => (s.grade.getD ⟨0, 1⟩).percentage)).sum /
            (((subs.filter (·.is_graded)).length : ℚ))))) := by
  intro subs hall
  constructor
  · intro h
    unfold AssignmentService.calculate_average_grade
    simp [h]
  · intro h
    unfold AssignmentService.calculate_average_grade
    have hisE : (subs.filter (·.is_graded)).isEmpty = false := by
      simpa [List.isEmpty_iff] using h
    simp only [hisE, Bool.false_eq_true, if_false]
    have hmap := mapM_option_eq_map (fun s : Submission => s.grade) ⟨0, 1⟩
      (subs.filter (·.is_graded))
      (fun x hx => hall x (List.mem_of_mem_filter hx) (List.of_mem_filter hx))
    rw [hmap]
    simp [List.map_map, Function.comp_def, List.length_map]

/-- Witness for C8: the average of one graded (50/100) and one ungraded
submission is 50, and a list with no graded submission yields none. -/
theorem c8_average_grade_witness :
    AssignmentService.calculate_average_grade [exSub0, exSub1] =
      some (some 50) ∧
    AssignmentService.calculate_average_grade [exSub0] = some none := by
  constructor
  · have h := (c8_average_grade [exSub0, exSub1] (by decide)).2 (by decide)
    rw [h]
    have hf : [exSub0, exSub1].filter (·.is_graded) = [exSub1] := rfl
    rw [hf]
    norm_num [exSub1, exSub0, Grade.percentage]
  · exact (c8_average_grade [exSub0] (by decide)).1 rfl

/-- C9: on a course in which the submission's student holds student role
(as `create_submission` guarantees and the public Course API preserves,
since a user holds at most one role), the self-grading branch of
`add_grade` is unreachable: a grader equal to the student (identity-based
equality) is stopped by the teacher-role check first, so the
self-grading error is never observed; and indeed every submission
produced by the factory satisfies that premise. -/
theorem c9_self_grading_unreachable :
    ∀ (s : Submission) (gb : User) (p : ℚ) (fb : String),
      (s.assignment.course.get_user_role s.student = some UserRole.student →
        userEq gb s.student = true →
        s.add_grade gb p fb = .error .notTeacher ∧
        s.add_grade gb p fb ≠ .error .selfGrade) ∧
      (∀ (a : Assignment) (u : User) (content : String) (fresh_id : Nat)
        (now : Int),
        Submission.create_submission a u content fresh_id now = .ok s →
        s.assignment.course.get_user_role s.student =
          some UserRole.student) := by
  intro s gb p fb
  constructor
  · intro hrole heq
    have h1 : s.assignment.course.get_user_role gb =
        some UserRole.student := by
      rw [get_user_role_congr _ heq, hrole]
    have h2 : s.assignment.course.get_user_role gb ≠
        some UserRole.teacher := by
      rw [h1]; simp
    have hmain : s.add_grade gb p fb = .error .notTeacher := by
      unfold Submission.add_grade; simp [h2]
    exact ⟨hmain, by rw [hmain]; simp⟩
  · intro a u content fresh now h
    unfold Submission.create_submission at h
    by_cases h1 : (!a.can_submit u now) = true
    · rw [if_pos h1] at h; exact Except.noConfusion h
    · rw [if_neg h1] at h
      simp only [Except.ok.injEq] at h
      have hcan : a.can_submit u now = true := by simpa using h1
      have hrole : a.course.get_user_role u = some UserRole.student := by
        by_contra hne
        have hfalse : a.can_submit u now = false := by
          unfold Assignment.can_submit
          rw [if_pos hne]
        rw [hfalse] at hcan
        exact Bool.noConfusion hcan
      rw [← h]
      exact hrole

/-- Witness for C9: `bob` grading his own factory-created submission is
rejected by the teacher check, not the self-grading check. -/
theorem c9_self_grading_unreachable_witness :
    exSub0.add_grade bob 50 "x" = .error .notTeacher ∧
    exSub0.assignment.course.get_user_role exSub0.student =
      some UserRole.student := by
  have h := c9_self_grading_unreachable exSub0 bob 50 "x"
  have hrole := h.2 exAssign bob "work" 300 5 rfl
  exact ⟨(h.1 hrole (by decide)).1, hrole⟩

/-- C10: `get_course_statistics` never divides by zero — the enrollment
percentage is computed as `total_students / max_students * 100` only when
`max_students` is a non-zero value, and the field is none both when no
capacity is set and when the capacity is 0 (Python falsiness). -/
theorem c10_enrollment_percentage_guard :
    ∀ c : Course,
      (c.max_students = none →
        (CourseManagementService.get_course_statistics
          c).enrollment_percentage = none) ∧
      (c.max_students = some 0 →
        (CourseManagementService.get_course_statistics
          c).enrollment_percentage = none) ∧
      (∀ n : Nat, c.max_students = some n → n ≠ 0 →
        (CourseManagementService.get_course_statistics
          c).enrollment_percentage =
          some (((c.enrollments.filter (·.is_student)).length : ℚ) /
              (n : ℚ) * 100)) := by
  intro c
  refine ⟨?_, ?_, ?_⟩
  · intro h
    unfold CourseManagementService.get_course_statistics
    simp [h]
  · intro h
    unfold CourseManagementService.get_course_statistics
    simp [h]
  · intro n h hn
    unfold CourseManagementService.get_course_statistics
    dsimp only
    rw [h]
    cases n with
    | zero => exact absurd rfl hn
    | succ m => rfl

/-- Witness for C10: no percentage when capacity is unset or 0; the
computed percentage when capacity is 1. -/
theorem c10_enrollment_percentage_guard_witness :
    (CourseManagementService.get_course_statistics
      { exCourse0 with max_students := none }).enrollment_percentage
        = none ∧
    (CourseManagementService.get_course_statistics
      { exCourse0 with max_students := some 0 }).enrollment_percentage
        = none ∧
    (CourseManagementService.get_course_statistics
      exCourse1).enrollment_percentage =
      some ((((exCourse1.enrollments.filter (·.is_student)).length : ℚ)) /
        ((1 : Nat) : ℚ) * 100) := by
  refine ⟨(c10_enrollment_percentage_guard _).1 rfl,
    (c10_enrollment_percentage_guard _).2.1 rfl, ?_⟩
  exact (c10_enrollment_percentage_guard exCourse1).2.2 1 rfl (by decide)

end Classroom
